import Mathlib

/-!
Verification of the constant-parameter codec slice of odxtools
(`odxtools/parameters/physicalconstantparameter.py`).

The source file under scrutiny defines `PhysicalConstantParameter`, a schema
field whose physical value is fixed by the schema.  Its collaborators
(`DataObjectProperty`, the encode/decode state objects, the base-class
`decode_from_pdu`, and the base-data-type string parser) are not part of the
given sources; they are modelled from the specification, with each such
definition marked `Modelled from the spec:`.
-/

/-- A typed physical value (`ParameterValue` in the source).  The claims only
need values that admit decidable equality; integers and strings cover the
scenarios of the specification. -/
inductive PhysValue where
  | int : Int → PhysValue
  | str : String → PhysValue
  deriving DecidableEq

/-- Python `repr` of a physical value, as interpolated by the `{...!r}`
conversions in the source's f-strings: integers render as their digits,
strings are quoted. -/
def pyRepr : PhysValue → String
  | .int n => toString n
  | .str s => "'" ++ s ++ "'"

/-- Modelled from the spec: the base data type tag of a converter
("a textual-parse function from a canonical string form to a typed value,
keyed by a base data type tag"); `odxtools.odxtypes.DataType` is not under
`src/`. -/
inductive BaseDataType where
  | aUint32
  | aUtf8String
  deriving DecidableEq

/-- Parse a decimal natural number; `none` on the empty string or any
non-digit character. -/
def parseNat? (s : String) : Option Nat :=
  if s.isEmpty then none
  else
    s.data.foldl
      (fun acc c =>
        match acc with
        | none => none
        | some n => if c.isDigit then some (n * 10 + (c.toNat - 48)) else none)
      (some 0)

/-- Modelled from the spec: `parse(base_type, text) -> value`, the converter's
base-type parser (`DataType.from_string` in odxtools, not under `src/`); it
"fails with MalformedConstantValueError on bad input". -/
def BaseDataType.from_string : BaseDataType → String → Option PhysValue
  | .aUint32, s => (parseNat? s).map (fun n => PhysValue.int n)
  | .aUtf8String, s => some (.str s)

/-- Modelled from the spec: a "simple" value converter
(`DataObjectProperty` in odxtools, not under `src/`): it carries a typed base
data type and translates a typed physical value to its raw byte
representation at a bit offset, and back.  `physical_to_bytes` takes the
value and the bit position (`convert_physical_to_bytes` in the source);
`decode_at` extracts the value at a byte position of a message and returns it
together with the next byte position. -/
structure DataObjectProperty where
  base_data_type : BaseDataType
  physical_to_bytes : PhysValue → Nat → List Nat
  decode_at : List Nat → Nat → PhysValue × Nat

/-- Modelled from the spec: the polymorphic converter base
(`DopBase` in odxtools): either a simple `DataObjectProperty` or some other
converter kind (table- or formula-based), identified here only by a tag. -/
inductive DopBase where
  | simple : DataObjectProperty → DopBase
  | other : String → DopBase

/-- Whether a resolved converter is a simple one
(`isinstance(dop, DataObjectProperty)` in the source). -/
def DopBase.isSimple : DopBase → Bool
  | .simple _ => true
  | .other _ => false

/-- The schema-level constant parameter, after the base class has resolved its
converter reference (`ParameterWithDOP._resolve_odxlinks` /
`_resolve_snrefs`, not under `src/`): `dop` is `none` when the reference did
not resolve.  `physical_constant_value_raw` is the schema-authored constant
text. -/
structure PhysicalConstantParameter where
  short_name : String
  byte_position : Option Nat
  bit_position : Option Nat
  dop : Option DopBase
  physical_constant_value_raw : String

/-- The error taxonomy of the specification.  `valueConflict` carries the
exact message string the source interpolates into the `TypeError` it raises;
the resolution errors carry the offending name or text. -/
inductive OdxError where
  | unresolvedReference : String → OdxError
  | incompatibleConverter : String → OdxError
  | malformedConstantValue : String → OdxError
  | valueConflict : String → OdxError
  deriving DecidableEq

/-- The message of the conflict error raised by
`get_coded_value_as_bytes`, verbatim from the source f-string: it
interpolates the parameter's `short_name` and the `repr` of its
`physical_constant_value`, nothing else. -/
def conflictMsg (short_name : String) (constant : PhysValue) : String :=
  "The parameter '" ++ short_name ++ "' is constant " ++ pyRepr constant ++
    " and thus can not be changed."

/-- A constant parameter whose name-scoped resolution succeeded: the simple
converter is known and the constant text has been parsed into a typed value
(`_physical_constant_value` is set).  Produced only by
`PhysicalConstantParameter._resolve_snrefs`. -/
structure ResolvedPhysicalConstantParameter where
  param : PhysicalConstantParameter
  dop : DataObjectProperty
  physical_constant_value : PhysValue

namespace PhysicalConstantParameter

/-- Source method `_resolve_snrefs`: require the converter reference to be
resolved (`odxrequire(self.dop)`), require it to be a simple
`DataObjectProperty` (`odxraise` otherwise — `IncompatibleConverterError` in
the specification's taxonomy), then parse `physical_constant_value_raw`
with the converter's base-data-type parser
(`base_data_type.from_string`); a parse failure is the specification's
`MalformedConstantValueError`. -/
def _resolve_snrefs (p : PhysicalConstantParameter) :
    Except OdxError ResolvedPhysicalConstantParameter :=
  match p.dop with
  | none => .error (.unresolvedReference p.short_name)
  | some (.other _) =>
      .error (.incompatibleConverter
        "The type of PHYS-CONST parameters must be a simple DOP")
  | some (.simple d) =>
      match d.base_data_type.from_string p.physical_constant_value_raw with
      | none => .error (.malformedConstantValue p.physical_constant_value_raw)
      | some v => .ok ⟨p, d, v⟩

/-- Source method `is_required`: a constant parameter never requires a
caller-supplied value. -/
def is_required (_ : PhysicalConstantParameter) : Bool := false

/-- Source method `is_optional`: a constant parameter is not omittable
either. -/
def is_optional (_ : PhysicalConstantParameter) : Bool := false

end PhysicalConstantParameter

/-- Modelled from the spec: the per-message encode context
(`EncodeState`, not under `src/`): a byte buffer under construction and the
caller-supplied override mapping `parameter_values` from field name to
asserted value. -/
structure EncodeState where
  coded_message : List Nat
  parameter_values : List (String × PhysValue)

/-- Lookup in the override mapping (Python
`name in d` / `d[name]` on the `parameter_values` dict). -/
def lookupParam (pvs : List (String × PhysValue)) (name : String) :
    Option PhysValue :=
  match pvs.find? (fun pv => pv.1 == name) with
  | some pv => some pv.2
  | none => none

/-- Modelled from the spec: the per-message decode context
(`DecodeState`, not under `src/`): the read-only wire bytes and the current
byte cursor. -/
structure DecodeState where
  coded_message : List Nat
  next_byte_position : Nat

/-- A non-fatal decode diagnostic.  Its fields are exactly the five values the
source interpolates into the `DecodeError` warning f-string, in order: the
parameter's `short_name`, the expected (`physical_constant_value`) and the
actual decoded value (both with `!r`), the `next_byte_position` rendered
after "at byte position", and the full coded message (rendered as hex). -/
structure DecodeWarning where
  param_name : String
  expected : PhysValue
  actual : PhysValue
  byte_position : Nat
  coded_message : List Nat
  deriving DecidableEq

namespace ResolvedPhysicalConstantParameter

/-- Source method `get_coded_value_as_bytes`: if the parameter's name has an
override in `encode_state.parameter_values` whose value differs from the
constant, raise (`TypeError` with `conflictMsg`); otherwise convert the
constant to bytes via the converter at `bit_position` (0 when absent). -/
def get_coded_value_as_bytes (r : ResolvedPhysicalConstantParameter)
    (encode_state : EncodeState) : Except OdxError (List Nat) :=
  match lookupParam encode_state.parameter_values r.param.short_name with
  | some v =>
      if v ≠ r.physical_constant_value then
        .error (.valueConflict (conflictMsg r.param.short_name
          r.physical_constant_value))
      else
        .ok (r.dop.physical_to_bytes r.physical_constant_value
          (r.param.bit_position.getD 0))
  | none =>
      .ok (r.dop.physical_to_bytes r.physical_constant_value
        (r.param.bit_position.getD 0))

/-- Modelled from the spec: the surrounding assembler's encode step — obtain
the coded bytes via `get_coded_value_as_bytes` and append them to the buffer;
on failure the state object is left as it was. -/
def encode (r : ResolvedPhysicalConstantParameter) (s : EncodeState) :
    Option OdxError × EncodeState :=
  match r.get_coded_value_as_bytes s with
  | .error e => (some e, s)
  | .ok bs => (none, { s with coded_message := s.coded_message ++ bs })

/-- Modelled from the spec: the base field decode shared by all parameter
variants (`super().decode_from_pdu`, not under `src/`): extract the value at
the parameter's position (its `byte_position` when set, else the current
cursor) via the converter and return it with the next byte position. -/
def baseDecode (r : ResolvedPhysicalConstantParameter) (s : DecodeState) :
    PhysValue × Nat :=
  r.dop.decode_at s.coded_message (r.param.byte_position.getD s.next_byte_position)

/-- Source method `decode_from_pdu`: delegate to the base decode; if the
decoded value differs from the constant, emit one `DecodeError` warning (the
`DecodeWarning` fields mirror the warning f-string) but still return the
actual value and the advanced position. -/
def decode_from_pdu (r : ResolvedPhysicalConstantParameter)
    (s : DecodeState) : (PhysValue × Nat) × List DecodeWarning :=
  let res := r.baseDecode s
  if res.1 ≠ r.physical_constant_value then
    (res, [{ param_name := r.param.short_name,
             expected := r.physical_constant_value,
             actual := res.1,
             byte_position := res.2,
             coded_message := s.coded_message }])
  else
    (res, [])

end ResolvedPhysicalConstantParameter

/-- A string `sub` occurs as a contiguous substring of `msg`. -/
def mentions (msg sub : String) : Prop :=
  List.IsInfix sub.data msg.data

instance (msg sub : String) : Decidable (mentions msg sub) :=
  List.decidableInfix sub.data msg.data

theorem data_append (a b : String) : (a ++ b).data = a.data ++ b.data := rfl

/-- The conflict message mentions the parameter's name. -/
theorem conflictMsg_mentions_name (n : String) (c : PhysValue) :
    mentions (conflictMsg n c) n :=
  ⟨("The parameter '").data,
   ("' is constant " ++ pyRepr c ++ " and thus can not be changed.").data,
   by simp [conflictMsg, data_append, mentions]⟩

/-- The conflict message mentions the rendering of the constant value. -/
theorem conflictMsg_mentions_constant (n : String) (c : PhysValue) :
    mentions (conflictMsg n c) (pyRepr c) :=
  ⟨("The parameter '" ++ n ++ "' is constant ").data,
   (" and thus can not be changed.").data,
   by simp [conflictMsg, data_append, mentions]⟩

/-- Modelled from the spec: the concrete converter of the specification's
scenario (base type integer, integer to one byte big-endian, and the
inverse). -/
def uint8DOP : DataObjectProperty where
  base_data_type := .aUint32
  physical_to_bytes := fun v _bitpos =>
    match v with
    | .int n => [n.toNat % 256]
    | .str _ => []
  decode_at := fun msg pos => (.int (msg.getD pos 0), pos + 1)

/-- The concrete scenario's parameter before constant-value resolution:
name "p", no explicit positions, simple converter already bound, constant
text "42". -/
def pUnresolved : PhysicalConstantParameter where
  short_name := "p"
  byte_position := none
  bit_position := none
  dop := some (.simple uint8DOP)
  physical_constant_value_raw := "42"

/-- The concrete scenario's parameter as a non-simple converter would leave
it: same fields, but the converter reference resolved to a structure-like
converter. -/
def pBadDop : PhysicalConstantParameter where
  short_name := "p"
  byte_position := none
  bit_position := none
  dop := some (.other "structure")
  physical_constant_value_raw := "42"

/-- The concrete scenario's parameter after resolution: constant value 42. -/
def pResolved : ResolvedPhysicalConstantParameter where
  param := pUnresolved
  dop := uint8DOP
  physical_constant_value := .int 42

theorem pUnresolved_resolves : pUnresolved._resolve_snrefs = .ok pResolved := rfl

/-- Extra scenario inputs: an encode state with a conflicting override, one
with the matching override, an empty one, and a parameter whose constant
text does not parse. -/
def sConflict : EncodeState := ⟨[], [("p", PhysValue.int 7)]⟩

def sEqual : EncodeState := ⟨[], [("p", PhysValue.int 42)]⟩

def sEmpty : EncodeState := ⟨[], []⟩

def pBadText : PhysicalConstantParameter where
  short_name := "p"
  byte_position := none
  bit_position := none
  dop := some (.simple uint8DOP)
  physical_constant_value_raw := "4x"

/-- C1 (amended): if the overrides mapping has an entry for the parameter's
name whose value differs from the constant, encoding fails with a conflict
error whose message names the parameter and the expected constant value; the
conflicting override value itself is not part of the message. -/
theorem C1_conflict_error_names (r : ResolvedPhysicalConstantParameter)
    (s : EncodeState) (v : PhysValue)
    (hv : lookupParam s.parameter_values r.param.short_name = some v)
    (hne : v ≠ r.physical_constant_value) :
    r.get_coded_value_as_bytes s =
      .error (.valueConflict (conflictMsg r.param.short_name
        r.physical_constant_value)) ∧
    mentions (conflictMsg r.param.short_name r.physical_constant_value)
      r.param.short_name ∧
    mentions (conflictMsg r.param.short_name r.physical_constant_value)
      (pyRepr r.physical_constant_value) := by
  refine ⟨?_, conflictMsg_mentions_name _ _, conflictMsg_mentions_constant _ _⟩
  simp [ResolvedPhysicalConstantParameter.get_coded_value_as_bytes, hv, hne]

/-- C1 witness: the amended statement at the concrete scenario (constant 42,
override 7). -/
theorem C1_witness :
    pResolved.get_coded_value_as_bytes sConflict =
      .error (.valueConflict (conflictMsg pResolved.param.short_name
        pResolved.physical_constant_value)) ∧
    mentions (conflictMsg pResolved.param.short_name
      pResolved.physical_constant_value) pResolved.param.short_name ∧
    mentions (conflictMsg pResolved.param.short_name
      pResolved.physical_constant_value)
      (pyRepr pResolved.physical_constant_value) :=
  C1_conflict_error_names pResolved sConflict (.int 7) (by decide) (by decide)

/-- C1 counterexample: at the concrete conflicting input (constant 42,
override 7) encoding does raise the conflict error, but the error's message
does not mention the conflicting override value 7 anywhere, against the
claim that the error names the conflicting override value. -/
theorem C1_counterexample :
    pResolved.get_coded_value_as_bytes sConflict =
      .error (.valueConflict
        "The parameter 'p' is constant 42 and thus can not be changed.") ∧
    ¬ mentions "The parameter 'p' is constant 42 and thus can not be changed."
      (pyRepr (PhysValue.int 7)) :=
  ⟨rfl, by decide⟩

/-- C2: decoding never fails on a constant mismatch: the returned value and
cursor are exactly those of the base decode (so the cursor advances as in
the matching case), a matching value emits no diagnostic, and a mismatching
value emits exactly one diagnostic. -/
theorem C2_tolerant_decode (r : ResolvedPhysicalConstantParameter)
    (s : DecodeState) :
    (r.decode_from_pdu s).1 = r.baseDecode s ∧
    ((r.baseDecode s).1 = r.physical_constant_value →
      (r.decode_from_pdu s).2 = []) ∧
    ((r.baseDecode s).1 ≠ r.physical_constant_value →
      (r.decode_from_pdu s).2.length = 1) := by
  by_cases h : (r.baseDecode s).1 = r.physical_constant_value <;>
    simp [ResolvedPhysicalConstantParameter.decode_from_pdu, h]

/-- C2 witness: decoding the one-byte message 0x07 against constant 42
returns the actual value 7 with advanced cursor 1 and one diagnostic. -/
theorem C2_witness :
    (pResolved.decode_from_pdu ⟨[7], 0⟩).1 = (PhysValue.int 7, 1) ∧
    (pResolved.decode_from_pdu ⟨[7], 0⟩).2.length = 1 := by
  have h := C2_tolerant_decode pResolved ⟨[7], 0⟩
  exact ⟨h.1.trans (by decide), h.2.2 (by decide)⟩

/-- C3: round trip — the bytes produced by encoding with no override for the
parameter decode back to the constant value with an empty diagnostics list,
provided the external converter inverts its own encoding. -/
theorem C3_roundtrip (r : ResolvedPhysicalConstantParameter) (s : EncodeState)
    (B : List Nat) (cur n : Nat)
    (hno : lookupParam s.parameter_values r.param.short_name = none)
    (hB : r.get_coded_value_as_bytes s = .ok B)
    (hinv : r.dop.decode_at B (r.param.byte_position.getD cur) =
      (r.physical_constant_value, n)) :
    r.decode_from_pdu ⟨B, cur⟩ = ((r.physical_constant_value, n), []) := by
  simp [ResolvedPhysicalConstantParameter.decode_from_pdu,
    ResolvedPhysicalConstantParameter.baseDecode, hinv]

/-- C3 witness: the concrete scenario — encoding constant 42 with no
override yields 0x2A, which decodes back to 42 with no diagnostics. -/
theorem C3_witness :
    pResolved.decode_from_pdu ⟨[42], 0⟩ = ((PhysValue.int 42, 1), []) :=
  C3_roundtrip pResolved sEmpty [42] 0 1 rfl rfl (by decide)

/-- C4 (amended): on a mismatch the single emitted diagnostic carries the
parameter name, the expected constant, the actual decoded value, the byte
position directly after the parameter (equal to the advanced cursor the
decode returns — not the offset at which decoding started), and the full
message bytes. -/
theorem C4_warning_contents (r : ResolvedPhysicalConstantParameter)
    (s : DecodeState)
    (hne : (r.baseDecode s).1 ≠ r.physical_constant_value) :
    (r.decode_from_pdu s).2 =
      [{ param_name := r.param.short_name
         expected := r.physical_constant_value
         actual := (r.baseDecode s).1
         byte_position := (r.baseDecode s).2
         coded_message := s.coded_message }] ∧
    (r.decode_from_pdu s).1.2 = (r.baseDecode s).2 := by
  simp [ResolvedPhysicalConstantParameter.decode_from_pdu, hne]

/-- C4 witness: the amended statement at the concrete scenario — the
diagnostic for message 0x07 against constant 42 carries name "p", expected
42, actual 7, byte position 1 and the message bytes. -/
theorem C4_witness :
    (pResolved.decode_from_pdu ⟨[7], 0⟩).2 =
      [⟨"p", PhysValue.int 42, PhysValue.int 7, 1, [7]⟩] := by
  have h := C4_warning_contents pResolved ⟨[7], 0⟩ (by decide)
  exact h.1.trans (by decide)

/-- C4 counterexample: for the parameter decoded at byte offset 0 of the
message 0x07, the diagnostic's byte-position field is 1 (the advanced
cursor), not the offset 0 at which the parameter was decoded, against the
claim's reading that the diagnostic carries the decode start offset. -/
theorem C4_counterexample :
    (pResolved.decode_from_pdu ⟨[7], 0⟩).2.map DecodeWarning.byte_position
        = [1] ∧
    (pResolved.decode_from_pdu ⟨[7], 0⟩).2.map DecodeWarning.byte_position
        ≠ [0] := by
  decide

/-- C5: if the resolved converter of a constant parameter is not a simple
one, name-scoped resolution fails with the incompatible-converter error
carrying the source's message. -/
theorem C5_incompatible_converter (p : PhysicalConstantParameter)
    (d : DopBase) (hd : p.dop = some d) (hns : d.isSimple = false) :
    p._resolve_snrefs = .error (.incompatibleConverter
      "The type of PHYS-CONST parameters must be a simple DOP") := by
  cases d with
  | simple d' => simp [DopBase.isSimple] at hns
  | other tag => simp [PhysicalConstantParameter._resolve_snrefs, hd]

/-- C5 witness: the parameter bound to a structure-like converter fails to
resolve with the incompatible-converter error. -/
theorem C5_witness :
    pBadDop._resolve_snrefs = .error (.incompatibleConverter
      "The type of PHYS-CONST parameters must be a simple DOP") :=
  C5_incompatible_converter pBadDop (.other "structure") rfl rfl

/-- C6: when resolution succeeds, the constant value is exactly the parse of
the raw constant text under the resolved converter's base data type (so it
is determined by the inputs, set once by resolution); a parse failure
surfaces as the malformed-constant error; and no malformed-constant error
can arise unless the converter is known and simple (the parse happens only
after the converter is known). -/
theorem C6_constant_value_parse (p : PhysicalConstantParameter) :
    (∀ r, p._resolve_snrefs = .ok r →
      ∃ d, p.dop = some (.simple d) ∧ r.param = p ∧ r.dop = d ∧
        d.base_data_type.from_string p.physical_constant_value_raw =
          some r.physical_constant_value) ∧
    (∀ d, p.dop = some (.simple d) →
      d.base_data_type.from_string p.physical_constant_value_raw = none →
      p._resolve_snrefs =
        .error (.malformedConstantValue p.physical_constant_value_raw)) ∧
    (∀ m, (p.dop = none ∨ ∃ tag, p.dop = some (.other tag)) →
      p._resolve_snrefs ≠ .error (.malformedConstantValue m)) := by
  refine ⟨fun r hr => ?_, fun d hd hparse => ?_, fun m hm hcontra => ?_⟩
  · cases hdop : p.dop with
    | none => simp [PhysicalConstantParameter._resolve_snrefs, hdop] at hr
    | some db =>
      cases db with
      | other tag =>
          simp [PhysicalConstantParameter._resolve_snrefs, hdop] at hr
      | simple d =>
          cases hp : d.base_data_type.from_string p.physical_constant_value_raw with
          | none =>
              simp [PhysicalConstantParameter._resolve_snrefs, hdop, hp] at hr
          | some v =>
              simp [PhysicalConstantParameter._resolve_snrefs, hdop, hp] at hr
              subst hr
              exact ⟨d, rfl, rfl, rfl, hp⟩
  · simp [PhysicalConstantParameter._resolve_snrefs, hd, hparse]
  · rcases hm with hm | ⟨tag, hm⟩ <;>
      simp [PhysicalConstantParameter._resolve_snrefs, hm] at hcontra

/-- C6 witness: the parameter whose constant text "4x" does not parse as an
integer fails to resolve with the malformed-constant error naming the text. -/
theorem C6_witness :
    pBadText._resolve_snrefs = .error (.malformedConstantValue "4x") :=
  (C6_constant_value_parse pBadText).2.1 uint8DOP rfl rfl

/-- C7: an override entry equal to the constant value makes the encode
succeed with exactly the bytes produced when no override entry is present. -/
theorem C7_override_equal (r : ResolvedPhysicalConstantParameter)
    (s s' : EncodeState)
    (h1 : lookupParam s.parameter_values r.param.short_name =
      some r.physical_constant_value)
    (h2 : lookupParam s'.parameter_values r.param.short_name = none) :
    r.get_coded_value_as_bytes s =
      .ok (r.dop.physical_to_bytes r.physical_constant_value
        (r.param.bit_position.getD 0)) ∧
    r.get_coded_value_as_bytes s = r.get_coded_value_as_bytes s' := by
  simp [ResolvedPhysicalConstantParameter.get_coded_value_as_bytes, h1, h2]

/-- C7 witness: overriding "p" with the constant 42 encodes exactly like the
empty override mapping. -/
theorem C7_witness :
    pResolved.get_coded_value_as_bytes sEqual =
      .ok (pResolved.dop.physical_to_bytes pResolved.physical_constant_value
        (pResolved.param.bit_position.getD 0)) ∧
    pResolved.get_coded_value_as_bytes sEqual =
      pResolved.get_coded_value_as_bytes sEmpty :=
  C7_override_equal pResolved sEqual sEmpty rfl rfl

/-- C8: with no conflicting override, the encode result is the conversion of
the constant value by the resolved converter at the parameter's bit
position, with bit position 0 when the field is absent. -/
theorem C8_encode_bytes (r : ResolvedPhysicalConstantParameter)
    (s : EncodeState)
    (h : lookupParam s.parameter_values r.param.short_name = none ∨
      lookupParam s.parameter_values r.param.short_name =
        some r.physical_constant_value) :
    r.get_coded_value_as_bytes s =
      .ok (r.dop.physical_to_bytes r.physical_constant_value
        (r.param.bit_position.getD 0)) := by
  rcases h with h | h <;>
    simp [ResolvedPhysicalConstantParameter.get_coded_value_as_bytes, h]

/-- C8 witness: the concrete scenario encodes constant 42 to the single byte
0x2A. -/
theorem C8_witness :
    pResolved.get_coded_value_as_bytes sEmpty = .ok [42] :=
  (C8_encode_bytes pResolved sEmpty (Or.inl rfl)).trans rfl

/-- C9: the encode step never changes the overrides mapping — the
parameter-values mapping of the state after the call equals the one before,
whether the call succeeded or failed. -/
theorem C9_overrides_preserved (r : ResolvedPhysicalConstantParameter)
    (s : EncodeState) :
    ((r.encode s).2).parameter_values = s.parameter_values := by
  unfold ResolvedPhysicalConstantParameter.encode
  split <;> rfl

/-- C10: a constant parameter is neither required nor optional. -/
theorem C10_not_required_not_optional (p : PhysicalConstantParameter) :
    p.is_required = false ∧ p.is_optional = false :=
  ⟨rfl, rfl⟩
